import Mathlib

/-!
Verification of the request-validation-and-authorization pipeline of the
os_construction_db Flask application (`app_improved.py`, `authentication.py`,
`models.py`, `exceptions.py`).

The embedding models each route handler as a pure function over an explicit
store (the Supabase table contents, as a list of records).  The Supabase
query combinators used by the handlers are modelled on lists:
`select(*).eq(col, v)` is `List.filter`, `range(a, b)` is drop/take,
`delete().eq(...)` splits the list by the predicate, `update(...).eq(...)`
maps a field-by-field dictionary update over the matching rows.  Exceptions
become an `Except AppError` result, with the `AppError` constructors
mirroring `exceptions.py` and the HTTP mapping mirroring the
`handle_custom_exception` error handler.
-/

/-- Exception taxonomy from `exceptions.py` (the constructors used by the
handlers under verification), each carrying its `str(e)` message. -/
inductive AppError where
  | validationError (msg : String)
  | resourceNotFoundError (msg : String)
  | authenticationError (msg : String)
  | authorizationError (msg : String)
  | databaseConnectionError (msg : String)
  deriving Repr, DecidableEq

/-- HTTP status assigned by `handle_custom_exception` in `app_improved.py`. -/
def AppError.status : AppError → Nat
  | .resourceNotFoundError _ => 404
  | .validationError _ => 400
  | .authenticationError _ => 401
  | .authorizationError _ => 403
  | .databaseConnectionError _ => 503

/-- Decidable equality for handler results, so that concrete runs of the
handlers can be checked by `decide`. -/
instance [DecidableEq ε] [DecidableEq α] : DecidableEq (Except ε α) := fun a b =>
  match a, b with
  | .error e, .error f =>
    if h : e = f then .isTrue (h ▸ rfl) else .isFalse (fun hc => h (Except.error.inj hc))
  | .ok x, .ok y =>
    if h : x = y then .isTrue (h ▸ rfl) else .isFalse (fun hc => h (Except.ok.inj hc))
  | .error _, .ok _ => .isFalse (fun hc => Except.noConfusion hc)
  | .ok _, .error _ => .isFalse (fun hc => Except.noConfusion hc)

/-- The `str(e)` message carried by the exception. -/
def AppError.message : AppError → String
  | .validationError m => m
  | .resourceNotFoundError m => m
  | .authenticationError m => m
  | .authorizationError m => m
  | .databaseConnectionError m => m

/-!  Character-level string helpers.  The Python string operations the
handlers rely on (`int()` parsing, `str.split`, `str.lower`, substring
tests) are defined here by structural recursion over `String.data`, so that
every definition in this file evaluates by kernel reduction. -/

/-- Python `str.isspace` on the whitespace characters `int()` strips. -/
def isPySpace (c : Char) : Bool :=
  c == ' ' || c == '\t' || c == '\n' || c == '\r' || c == '\x0b' || c == '\x0c'

/-- Drop leading whitespace from a character list. -/
def dropLeadingSpaces : List Char → List Char
  | [] => []
  | c :: cs => if isPySpace c then dropLeadingSpaces cs else c :: cs

/-- Python `str.strip()` (both ends). -/
def pyStrip (s : String) : String :=
  String.mk ((dropLeadingSpaces (dropLeadingSpaces s.data).reverse).reverse)

/-- The value of one ASCII decimal digit. -/
def digitVal? (c : Char) : Option Nat :=
  if '0' ≤ c && c ≤ '9' then some (c.toNat - '0'.toNat) else none

/-- Accumulate the value of a digit string; `none` on a non-digit. -/
def digitsToNat (acc : Nat) : List Char → Option Nat
  | [] => some acc
  | c :: cs =>
    match digitVal? c with
    | some d => digitsToNat (acc * 10 + d) cs
    | none => none

/-- The value of a nonempty all-digit character list. -/
def decDigits? (cs : List Char) : Option Nat :=
  if cs.isEmpty then none else digitsToNat 0 cs

/-- Python `str.split(sep)` on a single-character separator, on character
lists; always returns at least one (possibly empty) group, so
`split '' = ['']` as in Python. -/
def splitCharList (sep : Char) : List Char → List (List Char)
  | [] => [[]]
  | c :: cs =>
    let r := splitCharList sep cs
    if c == sep then [] :: r
    else
      match r with
      | [] => [[c]]
      | g :: gs => (c :: g) :: gs

/-- Python `str.split(sep)` for a one-character separator. -/
def pySplit (sep : Char) (s : String) : List String :=
  (splitCharList sep s.data).map String.mk

/-- ASCII lower-casing of a whole string. -/
def lowerStr (s : String) : String := String.mk (s.data.map Char.toLower)

/-- Whether `pat` is an initial segment of `s` (character lists). -/
def matchesHere : List Char → List Char → Bool
  | [], _ => true
  | _ :: _, [] => false
  | p :: ps, c :: cs => p == c && matchesHere ps cs

/-- Whether `pat` occurs as a contiguous sublist of `s`. -/
def hasSub (pat : List Char) : List Char → Bool
  | [] => pat.isEmpty
  | c :: cs => matchesHere pat (c :: cs) || hasSub pat cs

/-- Model of CPython `int(s)` on a string argument, restricted to ASCII
decimal literals: optional surrounding whitespace, an optional sign, then a
nonempty digit string; anything else raises `ValueError`, modelled as
`none`. -/
def pyInt (s : String) : Option Int :=
  match (pyStrip s).data with
  | '-' :: rest => (decDigits? rest).map (fun n => -(n : Int))
  | '+' :: rest => (decDigits? rest).map (fun n => (n : Int))
  | rest => (decDigits? rest).map (fun n => (n : Int))

/-- `get_pagination_params` from `app_improved.py`.  The two arguments are
`request.args.get('page', 1)` and `request.args.get('per_page', 10)`:
`none` means the query parameter is absent, in which case the integer
default is used.  `page = max(1, int(...))`,
`per_page = max(1, min(100, int(...)))`; a `ValueError` from `int()`
raises `ValidationError("Invalid pagination parameters")`. -/
def get_pagination_params (pageArg perPageArg : Option String) :
    Except AppError (Int × Int) :=
  match pyInt (pageArg.getD "1"), pyInt (perPageArg.getD "10") with
  | some p, some pp => .ok (max 1 p, max 1 (min 100 pp))
  | _, _ => .error (.validationError "Invalid pagination parameters")

/-- `paginate_query`: `offset = (page - 1) * per_page`,
`query.range(offset, offset + per_page - 1)` (an inclusive slice). -/
def paginate_query (rows : List α) (page perPage : Int) : List α :=
  let offset := ((page - 1) * perPage).toNat
  (rows.drop offset).take perPage.toNat

/-- The `pagination` part of the response envelope. -/
structure Pagination where
  page : Int
  per_page : Int
  total : Nat
  pages : Nat
  deriving Repr, DecidableEq

/-- The envelope returned by list endpoints. -/
structure Paginated (α : Type) where
  data : List α
  pagination : Pagination
  deriving Repr, DecidableEq

/-- `format_paginated_response` from `app_improved.py`:
`pages = (total + per_page - 1) // per_page if total > 0 else 0`. -/
def format_paginated_response (data : List α) (page perPage : Int)
    (total : Nat) : Paginated α :=
  { data := data
    pagination :=
      { page := page
        per_page := perPage
        total := total
        pages := if total > 0 then (total + perPage.toNat - 1) / perPage.toNat else 0 } }

/-- A row of the `os_construction` table, with the columns written by the
company endpoints.  `website`, `description` and `founded_year` are nullable
columns; `none` is SQL NULL. -/
structure Company where
  id : String
  company_name : String
  company_address : String
  company_email : String
  company_phone : String
  website : Option String
  description : Option String
  founded_year : Option Int
  is_verified : Bool
  created_at : String
  updated_at : String
  deriving Repr, DecidableEq

/-- The column names that can appear as keys of the `db_data` dict built by
`update_company` (the eight `CompanyUpdate` fields plus `updated_at`). -/
inductive CoField where
  | company_name | company_address | company_email | company_phone
  | website | description | founded_year | is_verified | updated_at
  deriving Repr, DecidableEq

/-- A JSON-serialisable value stored in the `db_data` dict. -/
inductive FieldVal where
  | s (v : String)
  | i (v : Int)
  | b (v : Bool)
  deriving Repr, DecidableEq

/-- Writing one `db_data` entry into a row (the column update performed by
`supabase.table(...).update(db_data)` for a single key).  A key/value pair
whose value has the wrong type for its column is ignored; the handlers never
produce such a pair. -/
def setCompanyField (c : Company) : CoField × FieldVal → Company
  | (.company_name, .s v) => { c with company_name := v }
  | (.company_address, .s v) => { c with company_address := v }
  | (.company_email, .s v) => { c with company_email := v }
  | (.company_phone, .s v) => { c with company_phone := v }
  | (.website, .s v) => { c with website := some v }
  | (.description, .s v) => { c with description := some v }
  | (.founded_year, .i v) => { c with founded_year := some v }
  | (.is_verified, .b v) => { c with is_verified := v }
  | (.updated_at, .s v) => { c with updated_at := v }
  | (_, _) => c

/-- Applying a whole `db_data` dict to a row: each present key overwrites
its column, absent keys leave the column untouched. -/
def applyDbData (c : Company) (kvs : List (CoField × FieldVal)) : Company :=
  kvs.foldl setCompanyField c

/-- The validated `CompanyUpdate` Pydantic model from `models.py`: every
field is `Optional` with default `None`, so a field is `none` both when the
key is absent from the JSON payload and when it is sent as an explicit
`null`. -/
structure CompanyUpdate where
  company_name : Option String := none
  company_address : Option String := none
  company_email : Option String := none
  company_phone : Option String := none
  website : Option String := none
  description : Option String := none
  founded_year : Option Int := none
  is_verified : Option Bool := none
  deriving Repr, DecidableEq

/-- The dict comprehension in `update_company`:
`db_data = {k: v for k, v in company_data.dict().items() if v is not None}`,
in the field-declaration order of `CompanyUpdate`. -/
def companyUpdateDbData (u : CompanyUpdate) : List (CoField × FieldVal) :=
  (match u.company_name with | some v => [(.company_name, .s v)] | none => []) ++
  (match u.company_address with | some v => [(.company_address, .s v)] | none => []) ++
  (match u.company_email with | some v => [(.company_email, .s v)] | none => []) ++
  (match u.company_phone with | some v => [(.company_phone, .s v)] | none => []) ++
  (match u.website with | some v => [(.website, .s v)] | none => []) ++
  (match u.description with | some v => [(.description, .s v)] | none => []) ++
  (match u.founded_year with | some v => [(.founded_year, .i v)] | none => []) ++
  (match u.is_verified with | some v => [(.is_verified, .b v)] | none => [])

/-- The row produced by applying an update payload to a stored row: the
`db_data` dict (non-None fields of `u`, plus `updated_at := now`) written
over `c`. -/
def updatedRow (c : Company) (u : CompanyUpdate) (now : String) : Company :=
  applyDbData c (companyUpdateDbData u ++ [(.updated_at, .s now)])

/-- `some a` overrides `b`; `none` keeps `b`.  This is the effect of a
dict update on a nullable column: present keys overwrite, absent keys
leave the stored value. -/
def optOverride (a b : Option α) : Option α :=
  match a with
  | some v => some v
  | none => b

/-- The `update_company` handler (PUT `/api/companies/<company_id>`) from
`app_improved.py`, after JSON parsing and Pydantic validation: `data = none`
models a missing/empty request body (`if not data`), `some u` a body that
validated to `u`.  The existence check
(`select("id").eq("id", company_id)`) precedes the update; the update
writes `db_data` (non-None fields plus `updated_at := now`) to every
matching row and returns `response.data[0]`. -/
def update_company (store : List Company) (company_id : String)
    (data : Option CompanyUpdate) (now : String) : Except AppError Company :=
  match data with
  | none => .error (.validationError "No data provided")
  | some u =>
    if (store.filter (fun c => c.id == company_id)).isEmpty then
      .error (.resourceNotFoundError
        ("Company with ID " ++ company_id ++ " not found"))
    else
      match (store.filter (fun c => c.id == company_id)).map
          (fun c => updatedRow c u now) with
      | [] => .error (.databaseConnectionError "Failed to update company")
      | r :: _ => .ok r

/-- The `delete_company` handler (DELETE `/api/companies/<company_id>`),
after the `token_required`/`admin_required` decorators have admitted the
request.  Returns the HTTP status, the success message, and the table
contents after the delete. -/
def delete_company (store : List Company) (company_id : String) :
    Except AppError (Nat × String × List Company) :=
  if (store.filter (fun c => c.id == company_id)).isEmpty then
    .error (.resourceNotFoundError
      ("Company with ID " ++ company_id ++ " not found"))
  else if (store.filter (fun c => c.id == company_id)).isEmpty then
    .error (.databaseConnectionError "Failed to delete company")
  else
    .ok (200, "Company with ID " ++ company_id ++ " deleted successfully",
      store.filter (fun c => !(c.id == company_id)))

/-- Case-insensitive substring containment, modelling the SQL
`ilike "%pat%"` filter: `pat` occurs inside `s` ignoring ASCII case. -/
def ilikeContains (s pat : String) : Bool :=
  hasSub (pat.data.map Char.toLower) (s.data.map Char.toLower)

/-- The `get_companies` handler (GET `/api/companies`).  Arguments mirror the
query string: `is_verified`, `name`, `page`, `per_page` (each `none` when
absent).  As in the source, the filters are applied to the query, but
`total_count` comes from `get_total_count(supabase, "os_construction")`,
which counts the whole table. -/
def get_companies (store : List Company)
    (isVerifiedArg nameArg pageArg perPageArg : Option String) :
    Except AppError (Paginated Company) := do
  let (page, perPage) ← get_pagination_params pageArg perPageArg
  let q := match isVerifiedArg with
    | some v => store.filter (fun c => c.is_verified == (lowerStr v == "true"))
    | none => store
  let q := match nameArg with
    | some n => if n.isEmpty then q
        else q.filter (fun c => ilikeContains c.company_name n)
    | none => q
  let total_count := store.length
  let data := paginate_query q page perPage
  return format_paginated_response data page perPage total_count

/-!  Authentication (`authentication.py`).  A JWT presented by a client is
modelled abstractly by its decoded content together with whether its
signature verifies against the configured secret; `jwt.decode` is then the
function below.  Clock values are integers (seconds). -/

/-- An incoming bearer token: subject (`sub`), `username`, expiry
(`exp`), and whether its HS256 signature matches `JWT_SECRET_KEY`. -/
structure Token where
  sub : String
  username : String
  exp : Int
  sigOk : Bool
  deriving Repr, DecidableEq

/-- `decode_token`: an expired token raises
`AuthenticationError('Token expired. Please log in again.')`, an invalid
one `AuthenticationError('Invalid token. Please log in again.')`; on
success the payload supplies `sub` and `username`. -/
def decode_token (t : Token) (now : Int) : Except AppError (String × String) :=
  if !t.sigOk then
    .error (.authenticationError "Invalid token. Please log in again.")
  else if t.exp ≤ now then
    .error (.authenticationError "Token expired. Please log in again.")
  else
    .ok (t.sub, t.username)

/-- A handler response: HTTP status and the `message` field of the JSON
body. -/
abbrev HttpResponse := Nat × String

/-- The `token_required` decorator: `bearer = none` models a request whose
`Authorization` header is absent or does not start with `Bearer `
(`token` stays `None`), yielding 401 `'Token is missing'`; otherwise the
token is decoded, failure yields 401 with `str(e)` as the message, and
success calls the wrapped view with `request.user_id`/`request.username`
set. -/
def token_required (bearer : Option Token) (now : Int)
    (f : String → String → HttpResponse) : HttpResponse :=
  match bearer with
  | none => (401, "Token is missing")
  | some t =>
    match decode_token t now with
    | .error e => (401, e.message)
    | .ok (uid, uname) => f uid uname

/-- The `admin_required` decorator, used inside `token_required`:
`admin_user_ids = os.environ.get('ADMIN_USER_IDS', '').split(',')`, and
the request is rejected with 403 `'Admin privileges required'` unless
`request.user_id` is in that list.  `adminEnv = none` models an unset
`ADMIN_USER_IDS` environment variable. -/
def admin_required (adminEnv : Option String)
    (f : String → String → HttpResponse) : String → String → HttpResponse :=
  fun uid uname =>
    let admin_user_ids := pySplit ',' (adminEnv.getD "")
    if admin_user_ids.contains uid then f uid uname
    else (403, "Admin privileges required")

/-- An admin-only route as wired in `app_improved.py`
(`@token_required` then `@admin_required` around the view `f`). -/
def admin_route (bearer : Option Token) (now : Int) (adminEnv : Option String)
    (f : String → String → HttpResponse) : HttpResponse :=
  token_required bearer now (admin_required adminEnv f)

/-!  Pydantic payload validation (`models.py`).  A raw JSON payload is
modelled with one `Option` per schema field (`none` = key absent or sent as
`null`, which Pydantic v1 treats identically for `Optional` fields).
Validation returns either the validated model or the list of
`(loc[0], msg)` pairs from `e.errors()`, collected for every offending
field in field-declaration order, as Pydantic does.  `EmailStr` is
modelled by a simplified well-formedness check (nonempty local part, `@`,
domain containing a dot); the claims under verification do not depend on
the exact email grammar, only on some payloads failing it. -/

/-- Simplified `EmailStr` well-formedness. -/
def emailOk (s : String) : Bool :=
  match splitCharList '@' s.data with
  | [l, d] => !l.isEmpty && !d.isEmpty && d.contains '.'
  | _ => false

/-- One field check: a required string with Pydantic `min_length`/
`max_length` constraints.  Returns the error list contributed by the
field. -/
def checkRequiredStr (fieldName : String) (lo hi : Nat) (v : Option String) :
    List (String × String) :=
  match v with
  | none => [(fieldName, "field required")]
  | some s =>
    if s.length < lo then
      [(fieldName, "ensure this value has at least " ++ toString lo ++ " characters")]
    else if s.length > hi then
      [(fieldName, "ensure this value has at most " ++ toString hi ++ " characters")]
    else []

/-- Raw JSON body for POST `/api/companies` (`CompanyCreate`). -/
structure RawCompany where
  company_name : Option String := none
  company_address : Option String := none
  company_email : Option String := none
  company_phone : Option String := none
  website : Option String := none
  description : Option String := none
  founded_year : Option Int := none
  is_verified : Option Bool := none
  deriving Repr, DecidableEq

/-- `CompanyCreate` validation: `company_name` required with length in
[1, 255]; `company_address` required; `company_email` a required
`EmailStr`; `company_phone` required with length in [5, 50];
`founded_year`, if present, in [1800, currentYear] (the custom
validator); `is_verified` defaults to `False`. -/
def validateCompanyCreate (currentYear : Int) (raw : RawCompany) :
    Except (List (String × String)) Company :=
  let errs :=
    checkRequiredStr "company_name" 1 255 raw.company_name ++
    (match raw.company_address with
     | none => [("company_address", "field required")]
     | some _ => []) ++
    (match raw.company_email with
     | none => [("company_email", "field required")]
     | some e =>
       if emailOk e then [] else
         [("company_email", "value is not a valid email address")]) ++
    checkRequiredStr "company_phone" 5 50 raw.company_phone ++
    (match raw.founded_year with
     | none => []
     | some y =>
       if y < 1800 || y > currentYear then
         [("founded_year",
           "Founded year must be between 1800 and " ++ toString currentYear)]
       else [])
  if errs.isEmpty then
    .ok
      { id := ""
        company_name := raw.company_name.getD ""
        company_address := raw.company_address.getD ""
        company_email := raw.company_email.getD ""
        company_phone := raw.company_phone.getD ""
        website := raw.website
        description := raw.description
        founded_year := raw.founded_year
        is_verified := raw.is_verified.getD false
        created_at := ""
        updated_at := "" }
  else .error errs

/-- The `except PydanticValidationError` clause shared by the mutating
handlers: `error_messages = [loc[0] + ": " + msg for err in e.errors()]`,
then `ValidationError("Invalid data: " + "; ".join(error_messages))`. -/
def pydanticErrorToAppError (errs : List (String × String)) : AppError :=
  .validationError
    ("Invalid data: " ++
      String.intercalate "; " (errs.map (fun e => e.1 ++ ": " ++ e.2)))

/-- The `create_company` handler (POST `/api/companies`), after
`token_required`: empty body check, Pydantic validation (a failure is
converted by `pydanticErrorToAppError`), then insert with `created_at` and
`updated_at` set to `now`; returns 201 with the inserted row. -/
def create_company (store : List Company) (data : Option RawCompany)
    (currentYear : Int) (now newId : String) :
    Except AppError (Nat × Company × List Company) :=
  match data with
  | none => .error (.validationError "No data provided")
  | some raw =>
    match validateCompanyCreate currentYear raw with
    | .error errs => .error (pydanticErrorToAppError errs)
    | .ok c =>
      let row := { c with id := newId, created_at := now, updated_at := now }
      .ok (201, row, store ++ [row])

/-- A row of `os_construction_services`. -/
structure Service where
  id : String
  company_id : String
  service_name : String
  description : Option String
  is_free : Bool
  eligibility_criteria : Option String
  created_at : String
  updated_at : String
  deriving Repr, DecidableEq

/-- Raw JSON body for POST `/api/companies/<id>/services`
(`ServiceCreate`). -/
structure RawService where
  service_name : Option String := none
  description : Option String := none
  is_free : Option Bool := none
  eligibility_criteria : Option String := none
  deriving Repr, DecidableEq

/-- `ServiceCreate` validation: `service_name` required with length in
[1, 255]; `is_free` defaults to `True`. -/
def validateServiceCreate (raw : RawService) :
    Except (List (String × String)) (String × Option String × Bool × Option String) :=
  let errs := checkRequiredStr "service_name" 1 255 raw.service_name
  if errs.isEmpty then
    .ok (raw.service_name.getD "", raw.description, raw.is_free.getD true,
      raw.eligibility_criteria)
  else .error errs

/-- The `add_company_service` handler (POST
`/api/companies/<company_id>/services`), after `token_required`.  The body
follows the source order: empty-body check, Pydantic validation, then the
company-existence check, then the insert. -/
def add_company_service (store : List Company) (company_id : String)
    (data : Option RawService) (now newId : String) :
    Except AppError (Nat × Service) :=
  match data with
  | none => .error (.validationError "No data provided")
  | some raw =>
    match validateServiceCreate raw with
    | .error errs => .error (pydanticErrorToAppError errs)
    | .ok (nm, desc, free, elig) =>
      let check := store.filter (fun c => c.id == company_id)
      if check.isEmpty then
        .error (.resourceNotFoundError
          ("Company with ID " ++ company_id ++ " not found"))
      else
        .ok (201,
          { id := newId, company_id := company_id, service_name := nm
            description := desc, is_free := free
            eligibility_criteria := elig
            created_at := now, updated_at := now })

/-- A row of `os_construction_projects`; dates are day ordinals. -/
structure Project where
  id : String
  company_id : String
  project_name : String
  location : String
  start_date : Option Int
  end_date : Option Int
  status : String
  description : Option String
  beneficiary_info : Option String
  created_at : String
  updated_at : String
  deriving Repr, DecidableEq

/-- Raw JSON body for POST `/api/companies/<id>/projects`
(`ProjectCreate`); `status = none` means the key is absent and the
default `"planned"` applies. -/
structure RawProject where
  project_name : Option String := none
  location : Option String := none
  start_date : Option Int := none
  end_date : Option Int := none
  status : Option String := none
  description : Option String := none
  beneficiary_info : Option String := none
  deriving Repr, DecidableEq

/-- The `valid_statuses` list from `models.py` and `app_improved.py`. -/
def validStatuses : List String :=
  ["planned", "in_progress", "completed", "cancelled", "on_hold"]

/-- `ProjectCreate` validation: `project_name` required with length in
[1, 255]; `location` required; the `end_date` validator rejects an end
date before the start date; the `status` validator restricts to
`validStatuses`. -/
def validateProjectCreate (raw : RawProject) :
    Except (List (String × String)) Project :=
  let status := raw.status.getD "planned"
  let errs :=
    checkRequiredStr "project_name" 1 255 raw.project_name ++
    (match raw.location with
     | none => [("location", "field required")]
     | some _ => []) ++
    (match raw.start_date, raw.end_date with
     | some s, some e =>
       if e < s then [("end_date", "End date must be after start date")]
       else []
     | _, _ => []) ++
    (if validStatuses.contains status then []
     else [("status",
       "Status must be one of " ++ toString validStatuses)])
  if errs.isEmpty then
    .ok
      { id := "", company_id := ""
        project_name := raw.project_name.getD ""
        location := raw.location.getD ""
        start_date := raw.start_date, end_date := raw.end_date
        status := status
        description := raw.description
        beneficiary_info := raw.beneficiary_info
        created_at := "", updated_at := "" }
  else .error errs

/-- The `add_company_project` handler (POST
`/api/companies/<company_id>/projects`), after `token_required`; same
body order as `add_company_service`: empty-body check, validation,
existence check, insert. -/
def add_company_project (store : List Company) (company_id : String)
    (data : Option RawProject) (now newId : String) :
    Except AppError (Nat × Project) :=
  match data with
  | none => .error (.validationError "No data provided")
  | some raw =>
    match validateProjectCreate raw with
    | .error errs => .error (pydanticErrorToAppError errs)
    | .ok p =>
      let check := store.filter (fun c => c.id == company_id)
      if check.isEmpty then
        .error (.resourceNotFoundError
          ("Company with ID " ++ company_id ++ " not found"))
      else
        .ok (201,
          { p with id := newId, company_id := company_id
                   created_at := now, updated_at := now })

/-- A row of `os_construction_employees`; `join_date` is a day ordinal. -/
structure Employee where
  id : String
  company_id : String
  full_name : String
  position : String
  email : Option String
  phone : Option String
  specialization : Option String
  join_date : Option Int
  created_at : String
  updated_at : String
  deriving Repr, DecidableEq

/-- Raw JSON body for POST `/api/companies/<id>/employees`
(`EmployeeCreate`). -/
structure RawEmployee where
  full_name : Option String := none
  position : Option String := none
  email : Option String := none
  phone : Option String := none
  specialization : Option String := none
  join_date : Option Int := none
  deriving Repr, DecidableEq

/-- `EmployeeCreate` validation: `full_name` required with length in
[1, 255]; `position` required with length in [1, 100]; `email`, if
present, an `EmailStr`. -/
def validateEmployeeCreate (raw : RawEmployee) :
    Except (List (String × String)) Employee :=
  let errs :=
    checkRequiredStr "full_name" 1 255 raw.full_name ++
    checkRequiredStr "position" 1 100 raw.position ++
    (match raw.email with
     | none => []
     | some e =>
       if emailOk e then [] else
         [("email", "value is not a valid email address")])
  if errs.isEmpty then
    .ok
      { id := "", company_id := ""
        full_name := raw.full_name.getD ""
        position := raw.position.getD ""
        email := raw.email, phone := raw.phone
        specialization := raw.specialization
        join_date := raw.join_date
        created_at := "", updated_at := "" }
  else .error errs

/-- The `add_company_employee` handler (POST
`/api/companies/<company_id>/employees`), after `token_required`; same
body order: empty-body check, validation, existence check, insert. -/
def add_company_employee (store : List Company) (company_id : String)
    (data : Option RawEmployee) (now newId : String) :
    Except AppError (Nat × Employee) :=
  match data with
  | none => .error (.validationError "No data provided")
  | some raw =>
    match validateEmployeeCreate raw with
    | .error errs => .error (pydanticErrorToAppError errs)
    | .ok emp =>
      let check := store.filter (fun c => c.id == company_id)
      if check.isEmpty then
        .error (.resourceNotFoundError
          ("Company with ID " ++ company_id ++ " not found"))
      else
        .ok (201,
          { emp with id := newId, company_id := company_id
                     created_at := now, updated_at := now })

/-!  Concrete fixtures used to evaluate the handlers on closed inputs. -/

/-- A verified company on file. -/
def exCompanyA : Company :=
  { id := "c1", company_name := "ACME Builders", company_address := "1 Road"
    company_email := "info@acme.com", company_phone := "12345"
    website := none, description := some "general contractor"
    founded_year := some 1990, is_verified := true
    created_at := "2024-01-01", updated_at := "2024-01-01" }

/-- An unverified company on file. -/
def exCompanyB : Company :=
  { id := "c2", company_name := "Beta Construction", company_address := "2 Road"
    company_email := "hello@beta.com", company_phone := "55555"
    website := some "https://beta.example", description := none
    founded_year := none, is_verified := false
    created_at := "2024-01-01", updated_at := "2024-01-01" }

/-- A trivial admitted view, standing for a route body. -/
def okHandler : String → String → HttpResponse := fun _ _ => (200, "ok")

/-- A company payload in which two fields fail validation:
`company_name` is empty and `company_email` is not an email address. -/
def badRawCompany : RawCompany :=
  { company_name := some "", company_address := some "1 Road"
    company_email := some "nodomain", company_phone := some "12345" }

/-!  Helper lemmas shared by the claim theorems. -/

/-- Unfolding of the `pages` field of the envelope. -/
theorem pagination_pages_def (data : List α) (page perPage : Int) (total : Nat) :
    (format_paginated_response data page perPage total).pagination.pages =
      if total > 0 then (total + perPage.toNat - 1) / perPage.toNat else 0 := rfl

set_option maxHeartbeats 4000000 in
/-- Character of the row written by `update_company`: each column carries the
payload value when the payload field is set and the stored value when it is
`none`; `id` and `created_at` are untouched and `updated_at` becomes `now`. -/
theorem applyDbData_update_spec (c : Company) (u : CompanyUpdate) (now : String) :
    updatedRow c u now =
      { id := c.id
        company_name := u.company_name.getD c.company_name
        company_address := u.company_address.getD c.company_address
        company_email := u.company_email.getD c.company_email
        company_phone := u.company_phone.getD c.company_phone
        website := optOverride u.website c.website
        description := optOverride u.description c.description
        founded_year := optOverride u.founded_year c.founded_year
        is_verified := u.is_verified.getD c.is_verified
        created_at := c.created_at
        updated_at := now } := by
  obtain ⟨n, a, e, p, w, d, f, v⟩ := u
  cases n <;> cases a <;> cases e <;> cases p <;> cases w <;> cases d <;>
    cases f <;> cases v <;> rfl

/-- When the filter on the company id is nonempty, `update_company` returns
200 with the head row rewritten through the `db_data` dict. -/
theorem update_company_result (store : List Company) (company_id : String)
    (u : CompanyUpdate) (now : String) (c : Company) (rest : List Company)
    (h : store.filter (fun x => x.id == company_id) = c :: rest) :
    update_company store company_id (some u) now = .ok (updatedRow c u now) := by
  unfold update_company
  rw [h]
  simp only [List.isEmpty_cons, Bool.false_eq_true, if_false, List.map_cons]

/-- Rows surviving `delete().eq("id", cid)` never match `id = cid` again. -/
theorem filter_id_after_remove (store : List Company) (cid : String) :
    (store.filter (fun c => !(c.id == cid))).filter (fun c => c.id == cid) = [] := by
  induction store with
  | nil => rfl
  | cons x xs ih =>
    by_cases hx : x.id == cid
    · simp [List.filter_cons, hx, ih]
    · simp [List.filter_cons, hx, ih]

/-!  Claim theorems. -/

/-- C6: for every `total ≥ 0` and `per_page` in [1, 100], the envelope's
`pages` is the least number of pages covering `total` rows — that is,
`pages = ceil(total / per_page)` — and `pages = 0` when `total = 0`. -/
theorem pages_formula_is_ceiling (total : Nat) (perPage : Int)
    (h1 : 1 ≤ perPage) (h2 : perPage ≤ 100) :
    (total ≤
        (format_paginated_response ([] : List Nat) 1 perPage total).pagination.pages
          * perPage.toNat
      ∧ ∀ m : Nat, total ≤ m * perPage.toNat →
          (format_paginated_response ([] : List Nat) 1 perPage total).pagination.pages ≤ m)
    ∧ (total = 0 →
        (format_paginated_response ([] : List Nat) 1 perPage total).pagination.pages = 0) := by
  have hpp : 0 < perPage.toNat := by omega
  rw [pagination_pages_def]
  by_cases h0 : total > 0
  · rw [if_pos h0]
    refine ⟨⟨?_, ?_⟩, by omega⟩
    · have hdm := Nat.div_add_mod (total + perPage.toNat - 1) perPage.toNat
      have hr := Nat.mod_lt (total + perPage.toNat - 1) hpp
      have hcomm : (total + perPage.toNat - 1) / perPage.toNat * perPage.toNat
          = perPage.toNat * ((total + perPage.toNat - 1) / perPage.toNat) :=
        Nat.mul_comm _ _
      rw [hcomm]
      generalize perPage.toNat * ((total + perPage.toNat - 1) / perPage.toNat) = A
        at hdm ⊢
      omega
    · intro m hm
      by_contra hc
      push_neg at hc
      have hstep : m + 1 ≤ (total + perPage.toNat - 1) / perPage.toNat := hc
      have hmul := (Nat.le_div_iff_mul_le hpp).mp hstep
      have hsucc : (m + 1) * perPage.toNat = m * perPage.toNat + perPage.toNat :=
        Nat.succ_mul m perPage.toNat
      rw [hsucc] at hmul
      generalize m * perPage.toNat = B at hmul hm
      omega
  · rw [if_neg h0]
    exact ⟨⟨by omega, fun m _ => Nat.zero_le m⟩, fun _ => rfl⟩

/-- Witness for C6 at `total = 25`, `per_page = 10`: `pages = 3`. -/
theorem pages_formula_is_ceiling_witness :
    (format_paginated_response ([] : List Nat) 1 10 25).pagination.pages = 3
    ∧ 25 ≤ (format_paginated_response ([] : List Nat) 1 10 25).pagination.pages
        * (10 : Int).toNat :=
  ⟨by decide, (pages_formula_is_ceiling 25 10 (by decide) (by decide)).1.1⟩

/-- C7: a non-numeric `page` or `per_page` makes pagination-parameter
extraction fail with `ValidationError`, and any successfully extracted pair
satisfies `page ≥ 1` and `per_page ∈ [1, 100]` (so no non-positive value is
ever silently substituted). -/
theorem pagination_params_reject_invalid (pageArg perPageArg : Option String) :
    ((pyInt (pageArg.getD "1") = none ∨ pyInt (perPageArg.getD "10") = none) →
      get_pagination_params pageArg perPageArg =
        .error (.validationError "Invalid pagination parameters"))
    ∧ (∀ p pp : Int, get_pagination_params pageArg perPageArg = .ok (p, pp) →
        1 ≤ p ∧ 1 ≤ pp ∧ pp ≤ 100) := by
  unfold get_pagination_params
  rcases h1 : pyInt (pageArg.getD "1") with _ | v1 <;>
    rcases h2 : pyInt (perPageArg.getD "10") with _ | v2
  · exact ⟨fun _ => rfl, fun p pp h => by cases h⟩
  · exact ⟨fun _ => rfl, fun p pp h => by cases h⟩
  · exact ⟨fun _ => rfl, fun p pp h => by cases h⟩
  · refine ⟨fun h => (by rcases h with h | h <;> cases h), ?_⟩
    intro p pp h
    injection h with h
    injection h with ha hb
    subst ha
    subst hb
    omega

/-- Witness for C7: `page = "abc"` is rejected with `ValidationError`. -/
theorem pagination_params_reject_invalid_witness :
    pyInt ((some "abc").getD "1") = none
    ∧ get_pagination_params (some "abc") none =
        .error (.validationError "Invalid pagination parameters") :=
  ⟨by decide,
    (pagination_params_reject_invalid (some "abc") none).1 (Or.inl (by decide))⟩

/-- C5: for an existing company (head of the id-filtered table) and any
update payload, the written row keeps `id` and `created_at`, sets
`updated_at`, carries the payload value for every field the payload sets,
and keeps the stored value for every field the payload leaves unset — in
particular, a one-field payload writes only that field plus `updated_at`,
and absent fields are never overwritten with defaults. -/
theorem update_company_partial_update_frame (store : List Company)
    (company_id : String) (u : CompanyUpdate) (now : String)
    (c : Company) (rest : List Company)
    (h : store.filter (fun x => x.id == company_id) = c :: rest) :
    update_company store company_id (some u) now = .ok (updatedRow c u now)
    ∧ (updatedRow c u now).id = c.id
    ∧ (updatedRow c u now).created_at = c.created_at
    ∧ (updatedRow c u now).updated_at = now
    ∧ (u.company_name = none → (updatedRow c u now).company_name = c.company_name)
    ∧ (u.company_address = none →
        (updatedRow c u now).company_address = c.company_address)
    ∧ (u.company_email = none → (updatedRow c u now).company_email = c.company_email)
    ∧ (u.company_phone = none → (updatedRow c u now).company_phone = c.company_phone)
    ∧ (u.website = none → (updatedRow c u now).website = c.website)
    ∧ (u.description = none → (updatedRow c u now).description = c.description)
    ∧ (u.founded_year = none → (updatedRow c u now).founded_year = c.founded_year)
    ∧ (u.is_verified = none → (updatedRow c u now).is_verified = c.is_verified)
    ∧ (∀ v, u.company_name = some v → (updatedRow c u now).company_name = v)
    ∧ (∀ v, u.company_address = some v → (updatedRow c u now).company_address = v)
    ∧ (∀ v, u.company_email = some v → (updatedRow c u now).company_email = v)
    ∧ (∀ v, u.company_phone = some v → (updatedRow c u now).company_phone = v)
    ∧ (∀ v, u.website = some v → (updatedRow c u now).website = some v)
    ∧ (∀ v, u.description = some v → (updatedRow c u now).description = some v)
    ∧ (∀ v, u.founded_year = some v → (updatedRow c u now).founded_year = some v)
    ∧ (∀ v, u.is_verified = some v → (updatedRow c u now).is_verified = v) := by
  rw [applyDbData_update_spec c u now]
  rw [← applyDbData_update_spec c u now]
  refine ⟨update_company_result store company_id u now c rest h, ?_⟩
  rw [applyDbData_update_spec c u now]
  refine ⟨rfl, rfl, rfl, ?_, ?_, ?_, ?_, ?_, ?_, ?_, ?_, ?_, ?_, ?_, ?_, ?_, ?_, ?_, ?_⟩ <;>
    first
      | (intro hx; rw [hx]; rfl)
      | (intro v hx; rw [hx]; rfl)

/-- Witness for C5: updating only `company_name` on a concrete record
changes exactly that field plus `updated_at`. -/
theorem update_company_partial_update_frame_witness :
    update_company [exCompanyA] "c1" (some { company_name := some "New Name" })
        "2024-06-01" =
      .ok (updatedRow exCompanyA { company_name := some "New Name" } "2024-06-01")
    ∧ (updatedRow exCompanyA { company_name := some "New Name" } "2024-06-01").company_name
        = "New Name"
    ∧ (updatedRow exCompanyA { company_name := some "New Name" } "2024-06-01").company_address
        = exCompanyA.company_address
    ∧ (updatedRow exCompanyA { company_name := some "New Name" } "2024-06-01").updated_at
        = "2024-06-01"
    ∧ (updatedRow exCompanyA { company_name := some "New Name" } "2024-06-01").created_at
        = exCompanyA.created_at := by
  have h := update_company_partial_update_frame [exCompanyA] "c1"
    { company_name := some "New Name" } "2024-06-01" exCompanyA [] (by decide)
  exact ⟨h.1, h.2.2.2.2.2.2.2.2.2.2.2.2.1 "New Name" rfl, h.2.2.2.2.2.1 rfl,
    h.2.2.2.1, h.2.2.1⟩

/-- C10: in a company update, a field whose validated value is `None`
(absent from the payload or sent as explicit `null` — both validate to
`none`) is excluded from the write: a nullable column of the written row is
NULL only if it was already NULL in the stored row and the payload did not
set it, so no update clears a stored field to null.  `updated_at` is always
written, even when the payload sets no other field. -/
theorem update_company_never_writes_null (store : List Company)
    (company_id : String) (u : CompanyUpdate) (now : String)
    (c : Company) (rest : List Company)
    (h : store.filter (fun x => x.id == company_id) = c :: rest) :
    update_company store company_id (some u) now = .ok (updatedRow c u now)
    ∧ (updatedRow c u now).updated_at = now
    ∧ ((updatedRow c u now).website = none → c.website = none ∧ u.website = none)
    ∧ ((updatedRow c u now).description = none →
        c.description = none ∧ u.description = none)
    ∧ ((updatedRow c u now).founded_year = none →
        c.founded_year = none ∧ u.founded_year = none) := by
  refine ⟨update_company_result store company_id u now c rest h, ?_⟩
  rw [applyDbData_update_spec c u now]
  refine ⟨rfl, ?_, ?_, ?_⟩
  · rcases hw : u.website with _ | x <;> simp [optOverride]
  · rcases hd : u.description with _ | x <;> simp [optOverride]
  · rcases hf : u.founded_year with _ | x <;> simp [optOverride]

/-- Witness for C10: an all-`none` payload (e.g. a body whose only key is an
explicit `null`) still writes `updated_at`, and leaves the nullable columns
exactly as stored. -/
theorem update_company_never_writes_null_witness :
    update_company [exCompanyA] "c1" (some {}) "2024-06-02" =
      .ok (updatedRow exCompanyA {} "2024-06-02")
    ∧ (updatedRow exCompanyA {} "2024-06-02").updated_at = "2024-06-02"
    ∧ (updatedRow exCompanyA {} "2024-06-02").description = exCompanyA.description := by
  have h := update_company_never_writes_null [exCompanyA] "c1" {} "2024-06-02"
    exCompanyA [] (by decide)
  exact ⟨h.1, h.2.1, by decide⟩

/-- C8: when the company exists, the first DELETE returns 200 and removes
every row with that id, so the second DELETE on the same id fails with
`ResourceNotFoundError`; and on an absent target DELETE never no-ops
silently but fails with `ResourceNotFoundError`. -/
theorem delete_company_double_delete (store : List Company) (company_id : String) :
    ((store.filter (fun c => c.id == company_id)).isEmpty = false →
      delete_company store company_id = .ok (200,
        "Company with ID " ++ company_id ++ " deleted successfully",
        store.filter (fun c => !(c.id == company_id)))
      ∧ delete_company (store.filter (fun c => !(c.id == company_id))) company_id =
          .error (.resourceNotFoundError
            ("Company with ID " ++ company_id ++ " not found")))
    ∧ ((store.filter (fun c => c.id == company_id)).isEmpty = true →
      delete_company store company_id =
        .error (.resourceNotFoundError
          ("Company with ID " ++ company_id ++ " not found"))) := by
  constructor
  · intro h
    constructor
    · simp [delete_company, h]
    · simp [delete_company, filter_id_after_remove]
  · intro h
    simp [delete_company, h]

/-- Witness for C8 on a one-company table: delete succeeds with 200, the
repeat delete yields `ResourceNotFoundError`. -/
theorem delete_company_double_delete_witness :
    delete_company [exCompanyA] "c1" = .ok (200,
      "Company with ID " ++ "c1" ++ " deleted successfully",
      [exCompanyA].filter (fun c => !(c.id == "c1")))
    ∧ delete_company ([exCompanyA].filter (fun c => !(c.id == "c1"))) "c1" =
        .error (.resourceNotFoundError ("Company with ID " ++ "c1" ++ " not found")) :=
  (delete_company_double_delete [exCompanyA] "c1").1 (by decide)

/-- C3 counterexample: on a two-row table with exactly one verified company,
GET `/api/companies?is_verified=true` returns one row of data but reports
`total = 2` — the size of the unfiltered table, not of the filtered result
set (which has size 1). -/
theorem get_companies_total_counts_unfiltered_cex :
    get_companies [exCompanyA, exCompanyB] (some "true") none none none =
      .ok { data := [exCompanyA]
            pagination := { page := 1, per_page := 10, total := 2, pages := 1 } }
    ∧ ([exCompanyA, exCompanyB].filter
        (fun c => c.is_verified == (lowerStr "true" == "true"))).length = 1 := by
  exact ⟨by decide, by decide⟩

/-- C3 amended: for GET `/api/companies`, the reported `total` always equals
the size of the whole table, whatever filters are supplied. -/
theorem get_companies_total_is_table_size (store : List Company)
    (isVerifiedArg nameArg pageArg perPageArg : Option String)
    (r : Paginated Company)
    (h : get_companies store isVerifiedArg nameArg pageArg perPageArg = .ok r) :
    r.pagination.total = store.length := by
  unfold get_companies at h
  cases hp : get_pagination_params pageArg perPageArg with
  | error e =>
    rw [hp] at h
    simp [Bind.bind, Except.bind] at h
  | ok pr =>
    obtain ⟨page, perPage⟩ := pr
    rw [hp] at h
    simp only [Bind.bind, Except.bind, pure, Except.pure] at h
    cases h
    rfl

/-- Witness for C3 amended at the concrete two-row table. -/
theorem get_companies_total_is_table_size_witness :
    get_companies [exCompanyA, exCompanyB] (some "true") none none none =
      .ok { data := [exCompanyA]
            pagination := { page := 1, per_page := 10, total := 2, pages := 1 } }
    ∧ (2 : Nat) = [exCompanyA, exCompanyB].length :=
  ⟨by decide,
    get_companies_total_is_table_size [exCompanyA, exCompanyB] (some "true")
      none none none
      { data := [exCompanyA]
        pagination := { page := 1, per_page := 10, total := 2, pages := 1 } }
      (by decide)⟩

/-- C1 counterexample: POSTing a malformed service payload (missing
`service_name`) under a company id that is not in the store yields
`ValidationError` (HTTP 400), not `ResourceNotFoundError` (404) — the
payload is validated before the parent-existence check. -/
theorem child_post_missing_parent_validation_cex :
    add_company_service [] "c1" (some {}) "2024-01-01" "s1" =
      .error (.validationError "Invalid data: service_name: field required")
    ∧ (([] : List Company).filter (fun c => c.id == "c1")).isEmpty = true
    ∧ (AppError.validationError
        "Invalid data: service_name: field required").status = 400 := by
  exact ⟨by decide, rfl, rfl⟩

/-- C1 amended: on POST to a child-resource endpoint (service, project or
employee) under a missing parent company, payload validation runs first: a
payload failing Pydantic validation yields `ValidationError`, and only a
payload passing validation reaches the existence check and yields
`ResourceNotFoundError`. -/
theorem child_post_validation_precedes_existence (store : List Company)
    (company_id now newId : String)
    (hmiss : (store.filter (fun c => c.id == company_id)).isEmpty = true) :
    (∀ raw errs, validateServiceCreate raw = .error errs →
      add_company_service store company_id (some raw) now newId =
        .error (pydanticErrorToAppError errs))
    ∧ (∀ raw res, validateServiceCreate raw = .ok res →
      add_company_service store company_id (some raw) now newId =
        .error (.resourceNotFoundError
          ("Company with ID " ++ company_id ++ " not found")))
    ∧ (∀ raw errs, validateProjectCreate raw = .error errs →
      add_company_project store company_id (some raw) now newId =
        .error (pydanticErrorToAppError errs))
    ∧ (∀ raw p, validateProjectCreate raw = .ok p →
      add_company_project store company_id (some raw) now newId =
        .error (.resourceNotFoundError
          ("Company with ID " ++ company_id ++ " not found")))
    ∧ (∀ raw errs, validateEmployeeCreate raw = .error errs →
      add_company_employee store company_id (some raw) now newId =
        .error (pydanticErrorToAppError errs))
    ∧ (∀ raw emp, validateEmployeeCreate raw = .ok emp →
      add_company_employee store company_id (some raw) now newId =
        .error (.resourceNotFoundError
          ("Company with ID " ++ company_id ++ " not found"))) := by
  refine ⟨?_, ?_, ?_, ?_, ?_, ?_⟩
  · intro raw errs hv
    simp [add_company_service, hv]
  · intro raw res hv
    obtain ⟨nm, desc, free, elig⟩ := res
    simp [add_company_service, hv, hmiss]
  · intro raw errs hv
    simp [add_company_project, hv]
  · intro raw p hv
    simp [add_company_project, hv, hmiss]
  · intro raw errs hv
    simp [add_company_employee, hv]
  · intro raw emp hv
    simp [add_company_employee, hv, hmiss]

/-- Witness for C1 amended: under the missing parent `"c1"`, a malformed
service payload yields `ValidationError` and a valid one yields
`ResourceNotFoundError`. -/
theorem child_post_validation_precedes_existence_witness :
    add_company_service [] "c1" (some {}) "2024-01-01" "s1" =
      .error (pydanticErrorToAppError [("service_name", "field required")])
    ∧ add_company_service [] "c1" (some { service_name := some "Roofing" })
        "2024-01-01" "s1" =
      .error (.resourceNotFoundError ("Company with ID " ++ "c1" ++ " not found")) :=
  ⟨(child_post_validation_precedes_existence [] "c1" "2024-01-01" "s1" rfl).1
      {} [("service_name", "field required")] (by decide),
    (child_post_validation_precedes_existence [] "c1" "2024-01-01" "s1" rfl).2.1
      { service_name := some "Roofing" } ("Roofing", none, true, none) (by decide)⟩

/-- C2 counterexample: a payload in which two fields fail validation
(`company_name` empty, `company_email` malformed) makes `create_company`
raise a `ValidationError` whose payload is one flat string joining the two
field messages with `"; "` — not a structured list of field/message
pairs. -/
theorem create_company_error_single_string_cex :
    create_company [] (some badRawCompany) 2026 "2024-01-01" "c9" =
      .error (.validationError
        ("Invalid data: company_name: ensure this value has at least 1 characters; company_email: value is not a valid email address")) := by
  decide

/-- C2 amended: when validation fails, the `ValidationError` carries the
single string `"Invalid data: "` followed by the `"field: message"`
renderings of every collected field error, joined with `"; "` — every
offending field is enumerated, but as one flat string rather than a
structured list of pairs. -/
theorem create_company_error_joins_field_messages (store : List Company)
    (raw : RawCompany) (currentYear : Int) (now newId : String)
    (errs : List (String × String))
    (hv : validateCompanyCreate currentYear raw = .error errs) :
    create_company store (some raw) currentYear now newId =
      .error (.validationError ("Invalid data: " ++
        String.intercalate "; " (errs.map (fun e => e.1 ++ ": " ++ e.2)))) := by
  simp [create_company, hv, pydanticErrorToAppError]

/-- Witness for C2 amended: a payload missing `company_name` and carrying a
five-character-minimum violation on `company_phone` produces the joined
two-entry message. -/
theorem create_company_error_joins_field_messages_witness :
    create_company []
      (some { company_address := some "1 Road", company_email := some "a@b.com"
              company_phone := some "123" })
      2026 "2024-01-01" "c9" =
      .error (.validationError ("Invalid data: " ++
        String.intercalate "; "
          ([("company_name", "field required"),
            ("company_phone", "ensure this value has at least 5 characters")].map
            (fun e => e.1 ++ ": " ++ e.2)))) :=
  create_company_error_joins_field_messages [] _ 2026 "2024-01-01" "c9" _ (by decide)

/-- C4: on an admin-only route, a request without a bearer token gets 401
`'Token is missing'`; a request with a correctly signed but expired token
gets 401 with the EXPIRED-type message `'Token expired. Please log in
again.'`; a request with a valid token whose subject is not in the
configured admin allow-list gets 403 `'Admin privileges required'` — the
401 vs 403 distinction is preserved. -/
theorem admin_route_status_codes (now : Int) (adminEnv : Option String)
    (f : String → String → HttpResponse) :
    admin_route none now adminEnv f = (401, "Token is missing")
    ∧ (∀ t : Token, t.sigOk = true → t.exp ≤ now →
        admin_route (some t) now adminEnv f =
          (401, "Token expired. Please log in again."))
    ∧ (∀ t : Token, t.sigOk = true → now < t.exp →
        (pySplit ',' (adminEnv.getD "")).contains t.sub = false →
        admin_route (some t) now adminEnv f = (403, "Admin privileges required")) := by
  refine ⟨rfl, ?_, ?_⟩
  · intro t hsig hexp
    simp [admin_route, token_required, decode_token, hsig, hexp, AppError.message]
  · intro t hsig hexp hmem
    have hn : ¬ t.exp ≤ now := by omega
    have hmem2 : ¬ t.sub ∈ pySplit ',' (adminEnv.getD "") := by simpa using hmem
    simp [admin_route, token_required, decode_token, admin_required,
      hsig, hn, hmem2]

/-- Witness for C4: an expired admin token gets 401 EXPIRED; a live
non-admin token gets 403; a missing token gets 401. -/
theorem admin_route_status_codes_witness :
    admin_route none 0 (some "admin-user-id") okHandler = (401, "Token is missing")
    ∧ admin_route
        (some { sub := "admin-user-id", username := "admin", exp := 10, sigOk := true })
        20 (some "admin-user-id") okHandler =
        (401, "Token expired. Please log in again.")
    ∧ admin_route
        (some { sub := "someone", username := "bob", exp := 100, sigOk := true })
        0 (some "admin-user-id") okHandler =
        (403, "Admin privileges required") :=
  ⟨(admin_route_status_codes 0 (some "admin-user-id") okHandler).1,
    (admin_route_status_codes 20 (some "admin-user-id") okHandler).2.1
      { sub := "admin-user-id", username := "admin", exp := 10, sigOk := true }
      rfl (by decide),
    (admin_route_status_codes 0 (some "admin-user-id") okHandler).2.2
      { sub := "someone", username := "bob", exp := 100, sigOk := true }
      rfl (by decide) (by decide)⟩

/-- C9: the admin role check admits a request exactly when the verified
subject id is an element of `ADMIN_USER_IDS` split on commas; splitting the
empty string yields `[""]`, so with the variable unset or empty a verified
token whose subject id is the empty string is granted admin access. -/
theorem admin_allow_list_is_env_split (adminEnv : Option String)
    (f : String → String → HttpResponse) (uid uname : String) :
    ((pySplit ',' (adminEnv.getD "")).contains uid = true →
      admin_required adminEnv f uid uname = f uid uname)
    ∧ ((pySplit ',' (adminEnv.getD "")).contains uid = false →
      admin_required adminEnv f uid uname = (403, "Admin privileges required"))
    ∧ pySplit ',' "" = [""]
    ∧ (adminEnv = none ∨ adminEnv = some "" →
      admin_required adminEnv f "" uname = f "" uname) := by
  have hm : "" ∈ pySplit ',' "" := by decide
  refine ⟨?_, ?_, by decide, ?_⟩
  · intro h
    have h2 : uid ∈ pySplit ',' (adminEnv.getD "") := by simpa using h
    simp [admin_required, h2]
  · intro h
    have h2 : ¬ uid ∈ pySplit ',' (adminEnv.getD "") := by simpa using h
    simp [admin_required, h2]
  · rintro (rfl | rfl) <;> simp [admin_required, Option.getD, hm]

/-- Witness for C9: with `ADMIN_USER_IDS` unset, the empty-string subject
is admitted; with a configured list, an unlisted subject is rejected. -/
theorem admin_allow_list_is_env_split_witness :
    admin_required none okHandler "" "ghost" = okHandler "" "ghost"
    ∧ admin_required (some "alice,bob") okHandler "mallory" "m" =
        (403, "Admin privileges required") :=
  ⟨(admin_allow_list_is_env_split none okHandler "" "ghost").2.2.2 (Or.inl rfl),
    (admin_allow_list_is_env_split (some "alice,bob") okHandler "mallory" "m").2.1
      (by decide)⟩
